import Mathlib

/-!
Verification of the offline-recognizer factory core of sherpa-onnx
(`sherpa-onnx/csrc/offline-recognizer-impl.cc` and
`sherpa-onnx/csrc/offline-recognizer-impl.h`).

The C++ core is embedded shallowly:
* configuration records become Lean structures mirroring the fields the
  factory reads;
* `OfflineRecognizerImpl::Create` becomes a pure function from the
  configuration and a file-system oracle (mapping a path to the metadata
  table embedded in the model artifact at that path) to a pair of
  (event trace, outcome); the event trace records the observable side
  effects (file read, inference-session construction) and the outcome is
  either a constructed recognizer or a fatal termination carrying the
  logged diagnostic message;
* the pure-virtual `DecodeStreams` contract has no implementation in the
  visible sources, so it is modelled from the specification text.
-/

namespace SherpaOnnx

/-- Mirror of `OfflineTransducerModelConfig`: the factory only reads
`encoder_filename`; the other transducer paths are carried untouched. -/
structure OfflineTransducerModelConfig where
  encoder_filename : String
  decoder_filename : String
  joiner_filename : String
deriving DecidableEq, Repr

/-- Mirror of `OfflineParaformerModelConfig`: a single `model` path. -/
structure OfflineParaformerModelConfig where
  model : String
deriving DecidableEq, Repr

/-- Mirror of `OfflineModelConfig`: one sub-record per supported family. -/
structure OfflineModelConfig where
  transducer : OfflineTransducerModelConfig
  paraformer : OfflineParaformerModelConfig
deriving DecidableEq, Repr

/-- Mirror of `OfflineRecognizerConfig` as consumed by
`OfflineRecognizerImpl::Create`. -/
structure OfflineRecognizerConfig where
  model_config : OfflineModelConfig
deriving DecidableEq, Repr

/-- The closed set of model families the factory can classify
(`Transducer` for "conformer"/"zipformer", `SinglePassNonAutoregressive`
for "paraformer", `Unknown` otherwise). -/
inductive ModelFamily where
  | Transducer
  | SinglePassNonAutoregressive
  | Unknown
deriving DecidableEq, Repr

/-- The classification decision embedded in the dispatch chain of
`OfflineRecognizerImpl::Create` (offline-recognizer-impl.cc lines 45-51):
`model_type == "conformer" || model_type == "zipformer"` selects the
transducer implementation, `model_type == "paraformer"` selects the
paraformer implementation, and any other string falls through to the
fatal "Unsupported model_type" branch. Exact, case-sensitive string
comparison; no normalization. -/
def classify (model_type : String) : ModelFamily :=
  if model_type = "conformer" ∨ model_type = "zipformer" then
    ModelFamily.Transducer
  else if model_type = "paraformer" then
    ModelFamily.SinglePassNonAutoregressive
  else
    ModelFamily.Unknown

/-- Modelled from the spec: the `SHERPA_ONNX_READ_META_DATA_STR` macro
(defined in `sherpa-onnx/csrc/macros.h`, which is outside the visible
sources) extracts a named string attribute from the artifact's metadata
table; per the spec it yields "a single string value for the requested
key (empty string if the key is absent — treated as part of
classification, not as a separate error)". -/
def readMetaDataStr (meta_data : List (String × String)) (key : String) :
    String :=
  match meta_data.lookup key with
  | some v => v
  | none => ""

/-- The primary-model-path selection if-chain at the top of
`OfflineRecognizerImpl::Create` (offline-recognizer-impl.cc lines 24-31):
the transducer encoder path is checked first, then the paraformer model
path; `none` corresponds to the `exit(-1)` branch reached when both are
empty. -/
def selectModelFilename (config : OfflineRecognizerConfig) :
    Option String :=
  if config.model_config.transducer.encoder_filename ≠ "" then
    some config.model_config.transducer.encoder_filename
  else if config.model_config.paraformer.model ≠ "" then
    some config.model_config.paraformer.model
  else
    none

/-- A constructed concrete recognizer: `OfflineRecognizerTransducerImpl`
or `OfflineRecognizerParaformerImpl`, each holding the full original
configuration that was forwarded to its constructor. -/
inductive OfflineRecognizer where
  | transducer (config : OfflineRecognizerConfig)
  | paraformer (config : OfflineRecognizerConfig)
deriving DecidableEq, Repr

/-- The message logged by the fatal "Unsupported model_type" branch
(offline-recognizer-impl.cc lines 53-59), with `%s` substituted by the
actual `model_type` value. -/
def unsupportedModelTypeMsg (model_type : String) : String :=
  "\nUnsupported model_type: " ++ model_type ++
    "\nWe support only the following model types at present: \n - transducer models from icefall\n - Paraformer models from FunASR\n"

/-- Observable side effects performed by `Create` before it returns or
terminates: reading the model file into memory (`ReadFile`) and
constructing the throwaway introspection session (`Ort::Session`). -/
inductive Event where
  | readFile (path : String)
  | sessionConstruct
deriving DecidableEq, Repr

/-- Outcome of `Create`: a constructed recognizer (returned through a
non-null `std::unique_ptr`), or one of the two fatal `exit(-1)` paths,
each carrying the diagnostic message logged before termination. -/
inductive CreateOutcome where
  | ok (r : OfflineRecognizer)
  | fatalNoModel (msg : String)
  | fatalUnsupported (msg : String)
deriving DecidableEq, Repr

/-- Shallow embedding of `OfflineRecognizerImpl::Create`
(offline-recognizer-impl.cc lines 18-61). `fs` is the file-system
oracle: it maps a model path to the metadata table embedded in the
artifact at that path. The first component of the result is the trace of
observable side effects (in order), the second the outcome. -/
def Create (config : OfflineRecognizerConfig)
    (fs : String → List (String × String)) :
    List Event × CreateOutcome :=
  match selectModelFilename config with
  | none => ([], CreateOutcome.fatalNoModel "Please provide a model")
  | some model_filename =>
    let meta_data := fs model_filename
    let model_type := readMetaDataStr meta_data "model_type"
    let trace := [Event.readFile model_filename, Event.sessionConstruct]
    match classify model_type with
    | ModelFamily.Transducer =>
        (trace, CreateOutcome.ok (OfflineRecognizer.transducer config))
    | ModelFamily.SinglePassNonAutoregressive =>
        (trace, CreateOutcome.ok (OfflineRecognizer.paraformer config))
    | ModelFamily.Unknown =>
        (trace,
         CreateOutcome.fatalUnsupported (unsupportedModelTypeMsg model_type))

/-- Per-utterance decode result produced by a family-specific decoding
algorithm; its exact shape is family-specific, so it is kept abstract as
the final text (the only part of the result the contract mentions). -/
structure OfflineRecognitionResult where
  text : String
deriving DecidableEq, Repr

/-- Modelled from the spec: an `OfflineStream` (declared in
`sherpa-onnx/csrc/offline-stream.h`, outside the visible sources) is
"per-utterance mutable state (buffered features, decode results)"; the
features are kept abstract as a list of numbers, and the result slot is
empty until a decode writes into it. -/
structure OfflineStream where
  features : List Int
  result : Option OfflineRecognitionResult
deriving DecidableEq, Repr

/-- Modelled from the spec: `DecodeStreams(ss, n)` is a pure virtual of
`OfflineRecognizerImpl` (offline-recognizer-impl.h line 24) whose
implementations are outside the visible sources. Per the spec it
"consumes the exact number of streams indicated by the explicit count
(the caller may pass a logically larger buffer but only the first `n`
entries are processed), runs the family-specific decoding algorithm over
all of them as one batch, and writes decode results into each Stream in
place". The family-specific decoding algorithm is abstracted as
`decodeOne`, a function from a stream's buffered features to its result. -/
def DecodeStreams (decodeOne : List Int → OfflineRecognitionResult)
    (ss : List OfflineStream) (n : Nat) : List OfflineStream :=
  ((ss.take n).map fun s => { s with result := some (decodeOne s.features) })
    ++ ss.drop n

theorem DecodeStreams_length (decodeOne : List Int → OfflineRecognitionResult)
    (ss : List OfflineStream) (n : Nat) :
    (DecodeStreams decodeOne ss n).length = ss.length := by
  simp [DecodeStreams]
  omega

/-- A string occurs verbatim inside another (containment of the
underlying character sequences). -/
def containsStr (s sub : String) : Prop :=
  ∃ a b : List Char, s.data = a ++ sub.data ++ b

/-- Helper: once a model filename has been selected, `Create` reads that
file, constructs the introspection session, and dispatches on the
classification of the artifact's "model_type" value. -/
theorem Create_eq_of_select (config : OfflineRecognizerConfig)
    (fs : String → List (String × String)) (fn : String)
    (h : selectModelFilename config = some fn) :
    Create config fs =
      ([Event.readFile fn, Event.sessionConstruct],
       match classify (readMetaDataStr (fs fn) "model_type") with
       | ModelFamily.Transducer =>
           CreateOutcome.ok (OfflineRecognizer.transducer config)
       | ModelFamily.SinglePassNonAutoregressive =>
           CreateOutcome.ok (OfflineRecognizer.paraformer config)
       | ModelFamily.Unknown =>
           CreateOutcome.fatalUnsupported
             (unsupportedModelTypeMsg (readMetaDataStr (fs fn) "model_type"))) := by
  simp only [Create, h]
  cases classify (readMetaDataStr (fs fn) "model_type") <;> simp

end SherpaOnnx

namespace SherpaOnnx

/-- C1: the classifier maps the metadata string exactly: "conformer" and
"zipformer" classify as the Transducer family, "paraformer" classifies as
the SinglePassNonAutoregressive family, and every other string — hence
also case or whitespace variants and the empty string — classifies as
Unknown, by exact case-sensitive comparison with no normalization. -/
theorem classify_decision_table :
    classify "conformer" = ModelFamily.Transducer ∧
    classify "zipformer" = ModelFamily.Transducer ∧
    classify "paraformer" = ModelFamily.SinglePassNonAutoregressive ∧
    ∀ s : String, s ≠ "conformer" → s ≠ "zipformer" → s ≠ "paraformer" →
      classify s = ModelFamily.Unknown := by
  refine ⟨rfl, rfl, rfl, ?_⟩
  intro s h1 h2 h3
  simp [classify, h1, h2, h3]

/-- Witness for C1: concrete unknown inputs — a case variant, a
whitespace variant, and the empty string — all classify as Unknown. -/
theorem classify_decision_table_witness :
    classify "Conformer" = ModelFamily.Unknown ∧
    classify " conformer" = ModelFamily.Unknown ∧
    classify "zipformer " = ModelFamily.Unknown ∧
    classify "" = ModelFamily.Unknown :=
  ⟨classify_decision_table.2.2.2 "Conformer" (by decide) (by decide)
      (by decide),
   classify_decision_table.2.2.2 " conformer" (by decide) (by decide)
      (by decide),
   classify_decision_table.2.2.2 "zipformer " (by decide) (by decide)
      (by decide),
   classify_decision_table.2.2.2 "" (by decide) (by decide) (by decide)⟩

/-- C2: `Create` selects the primary model path in a fixed priority
order: the transducer encoder path first, then the paraformer model
path; the first non-empty path is the one selected and read (it heads
the event trace). In particular, when both sub-records are populated the
transducer encoder path wins. -/
theorem Create_path_priority (config : OfflineRecognizerConfig)
    (fs : String → List (String × String)) :
    (config.model_config.transducer.encoder_filename ≠ "" →
      selectModelFilename config =
        some config.model_config.transducer.encoder_filename ∧
      (Create config fs).1.head? =
        some (Event.readFile
          config.model_config.transducer.encoder_filename)) ∧
    (config.model_config.transducer.encoder_filename = "" →
      config.model_config.paraformer.model ≠ "" →
      selectModelFilename config =
        some config.model_config.paraformer.model ∧
      (Create config fs).1.head? =
        some (Event.readFile config.model_config.paraformer.model)) := by
  constructor
  · intro h
    have hsel : selectModelFilename config =
        some config.model_config.transducer.encoder_filename := by
      simp [selectModelFilename, h]
    rw [Create_eq_of_select config fs _ hsel]
    exact ⟨hsel, rfl⟩
  · intro h1 h2
    have hsel : selectModelFilename config =
        some config.model_config.paraformer.model := by
      simp [selectModelFilename, h1, h2]
    rw [Create_eq_of_select config fs _ hsel]
    exact ⟨hsel, rfl⟩

/-- Witness for C2: in a configuration where both the transducer encoder
path and the paraformer model path are populated, the transducer encoder
path "enc.onnx" is selected and read. -/
theorem Create_path_priority_witness :
    selectModelFilename
        { model_config :=
          { transducer :=
            { encoder_filename := "enc.onnx", decoder_filename := "dec.onnx",
              joiner_filename := "join.onnx" },
            paraformer := { model := "para.onnx" } } } =
      some "enc.onnx" ∧
    (Create
        { model_config :=
          { transducer :=
            { encoder_filename := "enc.onnx", decoder_filename := "dec.onnx",
              joiner_filename := "join.onnx" },
            paraformer := { model := "para.onnx" } } }
        (fun _ => [])).1.head? = some (Event.readFile "enc.onnx") :=
  (Create_path_priority
    { model_config :=
      { transducer :=
        { encoder_filename := "enc.onnx", decoder_filename := "dec.onnx",
          joiner_filename := "join.onnx" },
        paraformer := { model := "para.onnx" } } }
    (fun _ => [])).1 (by decide)

/-- C3: when neither the transducer encoder filename nor the paraformer
model path is populated, `Create` fails with the "no model provided"
fatal condition and its event trace is empty: no file is read and no
inference session is constructed before the failure. -/
theorem Create_no_model_fatal (config : OfflineRecognizerConfig)
    (fs : String → List (String × String))
    (h1 : config.model_config.transducer.encoder_filename = "")
    (h2 : config.model_config.paraformer.model = "") :
    Create config fs =
      ([], CreateOutcome.fatalNoModel "Please provide a model") := by
  have hsel : selectModelFilename config = none := by
    simp [selectModelFilename, h1, h2]
  unfold Create
  rw [hsel]

/-- Witness for C3: the all-empty configuration fails with the
"no model provided" condition and an empty event trace. -/
theorem Create_no_model_fatal_witness :
    Create
        { model_config :=
          { transducer :=
            { encoder_filename := "", decoder_filename := "",
              joiner_filename := "" },
            paraformer := { model := "" } } }
        (fun _ => []) =
      ([], CreateOutcome.fatalNoModel "Please provide a model") :=
  Create_no_model_fatal
    { model_config :=
      { transducer :=
        { encoder_filename := "", decoder_filename := "",
          joiner_filename := "" },
        paraformer := { model := "" } } }
    (fun _ => []) (by decide) (by decide)

/-- C4: an Unknown classification makes `Create` fail fatally with the
"Unsupported model_type" diagnostic, whose text contains the
unrecognized value and the names of both supported families
("transducer" and "Paraformer"); no return path yields a constructed
recognizer in this case. -/
theorem Create_unknown_fatal (config : OfflineRecognizerConfig)
    (fs : String → List (String × String)) (fn : String)
    (hsel : selectModelFilename config = some fn)
    (hunk : classify (readMetaDataStr (fs fn) "model_type") =
      ModelFamily.Unknown) :
    (Create config fs).2 =
      CreateOutcome.fatalUnsupported
        (unsupportedModelTypeMsg (readMetaDataStr (fs fn) "model_type")) ∧
    containsStr
      (unsupportedModelTypeMsg (readMetaDataStr (fs fn) "model_type"))
      (readMetaDataStr (fs fn) "model_type") ∧
    containsStr
      (unsupportedModelTypeMsg (readMetaDataStr (fs fn) "model_type"))
      "transducer" ∧
    containsStr
      (unsupportedModelTypeMsg (readMetaDataStr (fs fn) "model_type"))
      "Paraformer" ∧
    ∀ r : OfflineRecognizer, (Create config fs).2 ≠ CreateOutcome.ok r := by
  rw [Create_eq_of_select config fs fn hsel, hunk]
  refine ⟨rfl, ?_, ?_, ?_, ?_⟩
  · exact ⟨"\nUnsupported model_type: ".data,
      "\nWe support only the following model types at present: \n - transducer models from icefall\n - Paraformer models from FunASR\n".data,
      by simp [unsupportedModelTypeMsg, String.data_append]⟩
  · refine ⟨"\nUnsupported model_type: ".data ++
      (readMetaDataStr (fs fn) "model_type").data ++
      "\nWe support only the following model types at present: \n - ".data,
      " models from icefall\n - Paraformer models from FunASR\n".data, ?_⟩
    have h : ("\nWe support only the following model types at present: \n - transducer models from icefall\n - Paraformer models from FunASR\n" : String).data =
        "\nWe support only the following model types at present: \n - ".data ++
          "transducer".data ++
          " models from icefall\n - Paraformer models from FunASR\n".data := by
      decide
    simp [unsupportedModelTypeMsg, String.data_append, h]
  · refine ⟨"\nUnsupported model_type: ".data ++
      (readMetaDataStr (fs fn) "model_type").data ++
      "\nWe support only the following model types at present: \n - transducer models from icefall\n - ".data,
      " models from FunASR\n".data, ?_⟩
    have h : ("\nWe support only the following model types at present: \n - transducer models from icefall\n - Paraformer models from FunASR\n" : String).data =
        "\nWe support only the following model types at present: \n - transducer models from icefall\n - ".data ++
          "Paraformer".data ++ " models from FunASR\n".data := by
      decide
    simp [unsupportedModelTypeMsg, String.data_append, h]
  · intro r
    simp

/-- Witness for C4: with "model.onnx" whose metadata carries
"model_type" = "whisper", `Create` terminates with the diagnostic that
names "whisper" and both supported families, and returns no recognizer. -/
theorem Create_unknown_fatal_witness :
    (Create
        { model_config :=
          { transducer :=
            { encoder_filename := "model.onnx", decoder_filename := "",
              joiner_filename := "" },
            paraformer := { model := "" } } }
        (fun _ => [("model_type", "whisper")])).2 =
      CreateOutcome.fatalUnsupported
        (unsupportedModelTypeMsg
          (readMetaDataStr [("model_type", "whisper")] "model_type")) ∧
    containsStr
      (unsupportedModelTypeMsg
        (readMetaDataStr [("model_type", "whisper")] "model_type"))
      (readMetaDataStr [("model_type", "whisper")] "model_type") ∧
    containsStr
      (unsupportedModelTypeMsg
        (readMetaDataStr [("model_type", "whisper")] "model_type"))
      "transducer" ∧
    containsStr
      (unsupportedModelTypeMsg
        (readMetaDataStr [("model_type", "whisper")] "model_type"))
      "Paraformer" ∧
    ∀ r : OfflineRecognizer,
      (Create
          { model_config :=
            { transducer :=
              { encoder_filename := "model.onnx", decoder_filename := "",
                joiner_filename := "" },
              paraformer := { model := "" } } }
          (fun _ => [("model_type", "whisper")])).2 ≠ CreateOutcome.ok r :=
  Create_unknown_fatal
    { model_config :=
      { transducer :=
        { encoder_filename := "model.onnx", decoder_filename := "",
          joiner_filename := "" },
        paraformer := { model := "" } } }
    (fun _ => [("model_type", "whisper")]) "model.onnx" (by decide)
    (by decide)

/-- C5: when classification succeeds, `Create` returns the concrete
recognizer of the classified family, and the chosen implementation's
constructor receives the entire original configuration unchanged. -/
theorem Create_dispatch_full_config (config : OfflineRecognizerConfig)
    (fs : String → List (String × String)) (fn : String)
    (hsel : selectModelFilename config = some fn) :
    (classify (readMetaDataStr (fs fn) "model_type") =
        ModelFamily.Transducer →
      (Create config fs).2 =
        CreateOutcome.ok (OfflineRecognizer.transducer config)) ∧
    (classify (readMetaDataStr (fs fn) "model_type") =
        ModelFamily.SinglePassNonAutoregressive →
      (Create config fs).2 =
        CreateOutcome.ok (OfflineRecognizer.paraformer config)) := by
  rw [Create_eq_of_select config fs fn hsel]
  constructor <;> intro h <;> rw [h]

/-- Witness for C5: a configuration whose encoder artifact carries
"model_type" = "zipformer" yields the transducer implementation holding
the whole original configuration (auxiliary fields included). -/
theorem Create_dispatch_full_config_witness :
    (Create
        { model_config :=
          { transducer :=
            { encoder_filename := "enc.onnx", decoder_filename := "dec.onnx",
              joiner_filename := "join.onnx" },
            paraformer := { model := "" } } }
        (fun _ => [("model_type", "zipformer")])).2 =
      CreateOutcome.ok
        (OfflineRecognizer.transducer
          { model_config :=
            { transducer :=
              { encoder_filename := "enc.onnx",
                decoder_filename := "dec.onnx",
                joiner_filename := "join.onnx" },
              paraformer := { model := "" } } }) :=
  (Create_dispatch_full_config
    { model_config :=
      { transducer :=
        { encoder_filename := "enc.onnx", decoder_filename := "dec.onnx",
          joiner_filename := "join.onnx" },
        paraformer := { model := "" } } }
    (fun _ => [("model_type", "zipformer")]) "enc.onnx" (by decide)).1
    (by decide)

/-- C6: when the "model_type" key is absent from the metadata table, the
read yields the empty string, and the case is handled by classification
(empty classifies as Unknown, producing the classification fatal branch)
rather than as a separate metadata-read error. -/
theorem Create_absent_key_classified (config : OfflineRecognizerConfig)
    (fs : String → List (String × String)) (fn : String)
    (hsel : selectModelFilename config = some fn)
    (habs : (fs fn).lookup "model_type" = none) :
    readMetaDataStr (fs fn) "model_type" = "" ∧
    classify "" = ModelFamily.Unknown ∧
    (Create config fs).2 =
      CreateOutcome.fatalUnsupported (unsupportedModelTypeMsg "") := by
  have hread : readMetaDataStr (fs fn) "model_type" = "" := by
    simp [readMetaDataStr, habs]
  refine ⟨hread, rfl, ?_⟩
  rw [Create_eq_of_select config fs fn hsel, hread]
  rfl

/-- Witness for C6: a selected artifact with an empty metadata table
classifies as Unknown via the empty string and terminates in the
classification fatal branch. -/
theorem Create_absent_key_classified_witness :
    readMetaDataStr ([] : List (String × String)) "model_type" = "" ∧
    classify "" = ModelFamily.Unknown ∧
    (Create
        { model_config :=
          { transducer :=
            { encoder_filename := "enc.onnx", decoder_filename := "",
              joiner_filename := "" },
            paraformer := { model := "" } } }
        (fun _ => [])).2 =
      CreateOutcome.fatalUnsupported (unsupportedModelTypeMsg "") :=
  Create_absent_key_classified
    { model_config :=
      { transducer :=
        { encoder_filename := "enc.onnx", decoder_filename := "",
          joiner_filename := "" },
        paraformer := { model := "" } } }
    (fun _ => []) "enc.onnx" (by decide) (by decide)

/-- C7: classification is a pure, deterministic function of its input
string: applying `classify` twice to the same string yields the same
family, and equal inputs yield equal families; the embedding is a total
function with no state, so there is no observable side effect. -/
theorem classify_pure_deterministic :
    ∀ s : String, classify s = classify s ∧
      ∀ t : String, s = t → classify s = classify t := by
  intro s
  exact ⟨rfl, fun t h => by rw [h]⟩

/-- Witness for C7: two applications of `classify` to the same concrete
string agree. -/
theorem classify_pure_deterministic_witness :
    classify "zipformer" = classify "zipformer" :=
  (classify_pure_deterministic "zipformer").2 "zipformer" rfl

/-- C10: whenever `Create` returns at all, it returns a constructed
recognizer of exactly one of the two concrete families, holding the
original configuration; an Unknown classification is never surfaced as a
returned recognizer (both error paths are fatal outcomes, not `ok`). -/
theorem Create_ok_only_concrete (config : OfflineRecognizerConfig)
    (fs : String → List (String × String)) (r : OfflineRecognizer)
    (h : (Create config fs).2 = CreateOutcome.ok r) :
    r = OfflineRecognizer.transducer config ∨
      r = OfflineRecognizer.paraformer config := by
  cases hsel : selectModelFilename config with
  | none =>
    unfold Create at h
    rw [hsel] at h
    simp at h
  | some fn =>
    rw [Create_eq_of_select config fs fn hsel] at h
    cases hc : classify (readMetaDataStr (fs fn) "model_type") <;>
      rw [hc] at h <;> simp at h
    · exact Or.inl h.symm
    · exact Or.inr h.symm

/-- Witness for C10: a concrete successful `Create` returns the
transducer-family recognizer. -/
theorem Create_ok_only_concrete_witness :
    OfflineRecognizer.transducer
        { model_config :=
          { transducer :=
            { encoder_filename := "enc.onnx", decoder_filename := "",
              joiner_filename := "" },
            paraformer := { model := "" } } } =
      OfflineRecognizer.transducer
        { model_config :=
          { transducer :=
            { encoder_filename := "enc.onnx", decoder_filename := "",
              joiner_filename := "" },
            paraformer := { model := "" } } } ∨
    OfflineRecognizer.transducer
        { model_config :=
          { transducer :=
            { encoder_filename := "enc.onnx", decoder_filename := "",
              joiner_filename := "" },
            paraformer := { model := "" } } } =
      OfflineRecognizer.paraformer
        { model_config :=
          { transducer :=
            { encoder_filename := "enc.onnx", decoder_filename := "",
              joiner_filename := "" },
            paraformer := { model := "" } } } :=
  Create_ok_only_concrete
    { model_config :=
      { transducer :=
        { encoder_filename := "enc.onnx", decoder_filename := "",
          joiner_filename := "" },
        paraformer := { model := "" } } }
    (fun _ => [("model_type", "conformer")]) _ (by decide)

/-- C8: after `DecodeStreams` returns, each of the first `n` streams
holds a valid decode result written in place (the result of the
family-specific algorithm on that stream's buffered features), which it
did not hold before the call. -/
theorem DecodeStreams_writes_results
    (decodeOne : List Int → OfflineRecognitionResult)
    (ss : List OfflineStream) (n i : Nat)
    (hin : i < n) (hlen : i < ss.length)
    (hbefore : (ss.get ⟨i, hlen⟩).result = none) :
    ∃ hlen2 : i < (DecodeStreams decodeOne ss n).length,
      ((DecodeStreams decodeOne ss n).get ⟨i, hlen2⟩).result =
        some (decodeOne (ss.get ⟨i, hlen⟩).features) ∧
      ((DecodeStreams decodeOne ss n).get ⟨i, hlen2⟩).result ≠
        (ss.get ⟨i, hlen⟩).result := by
  have hlen2 : i < (DecodeStreams decodeOne ss n).length := by
    rw [DecodeStreams_length]
    exact hlen
  have hmap : i < ((ss.take n).map
      (fun s => { s with result := some (decodeOne s.features) })).length := by
    simp
    omega
  have hget : (DecodeStreams decodeOne ss n).get ⟨i, hlen2⟩ =
      { ss.get ⟨i, hlen⟩ with
        result := some (decodeOne (ss.get ⟨i, hlen⟩).features) } := by
    simp only [DecodeStreams, List.get_eq_getElem]
    rw [List.getElem_append_left hmap]
    simp [List.getElem_take]
  refine ⟨hlen2, ?_, ?_⟩
  · rw [hget]
  · rw [hget, hbefore]
    simp

/-- Witness for C8: decoding a two-stream batch with `n = 2` writes a
fresh result into stream 0 that it did not hold before. -/
theorem DecodeStreams_writes_results_witness :
    ∃ hlen2 : 0 < (DecodeStreams (fun _ => { text := "hi" })
        [{ features := [1], result := none },
         { features := [2], result := none }] 2).length,
      ((DecodeStreams (fun _ => { text := "hi" })
          [{ features := [1], result := none },
           { features := [2], result := none }] 2).get ⟨0, hlen2⟩).result =
        some ((fun _ => ({ text := "hi" } : OfflineRecognitionResult))
          (([{ features := [1], result := none },
              { features := [2], result := none }] :
              List OfflineStream).get ⟨0, by decide⟩).features) ∧
      ((DecodeStreams (fun _ => { text := "hi" })
          [{ features := [1], result := none },
           { features := [2], result := none }] 2).get ⟨0, hlen2⟩).result ≠
        (([{ features := [1], result := none },
            { features := [2], result := none }] :
            List OfflineStream).get ⟨0, by decide⟩).result :=
  DecodeStreams_writes_results (fun _ => { text := "hi" })
    [{ features := [1], result := none },
     { features := [2], result := none }] 2 0 (by decide) (by decide)
    (by decide)

/-- C9: `DecodeStreams` processes exactly the first `n` entries of the
stream buffer: every entry at a position at or beyond `n` is left
untouched by the call. -/
theorem DecodeStreams_frame_untouched
    (decodeOne : List Int → OfflineRecognitionResult)
    (ss : List OfflineStream) (n i : Nat)
    (hge : n ≤ i) (hlen : i < ss.length) :
    ∃ hlen2 : i < (DecodeStreams decodeOne ss n).length,
      (DecodeStreams decodeOne ss n).get ⟨i, hlen2⟩ = ss.get ⟨i, hlen⟩ := by
  have hlen2 : i < (DecodeStreams decodeOne ss n).length := by
    rw [DecodeStreams_length]
    exact hlen
  have hmaplen : ((ss.take n).map
      (fun s => { s with result := some (decodeOne s.features) })).length ≤
      i := by
    simp
    omega
  refine ⟨hlen2, ?_⟩
  simp only [DecodeStreams, List.get_eq_getElem]
  rw [List.getElem_append_right hmaplen]
  simp only [List.getElem_drop, List.length_map, List.length_take]
  congr 1
  omega

/-- Witness for C9: with a three-stream buffer and `n = 2`, the third
stream comes back exactly as it went in. -/
theorem DecodeStreams_frame_untouched_witness :
    ∃ hlen2 : 2 < (DecodeStreams (fun _ => { text := "hi" })
        [{ features := [1], result := none },
         { features := [2], result := none },
         { features := [3], result := none }] 2).length,
      (DecodeStreams (fun _ => { text := "hi" })
          [{ features := [1], result := none },
           { features := [2], result := none },
           { features := [3], result := none }] 2).get ⟨2, hlen2⟩ =
        ([{ features := [1], result := none },
           { features := [2], result := none },
           { features := [3], result := none }] :
           List OfflineStream).get ⟨2, by decide⟩ :=
  DecodeStreams_frame_untouched (fun _ => { text := "hi" })
    [{ features := [1], result := none },
     { features := [2], result := none },
     { features := [3], result := none }] 2 2 (by decide) (by decide)

end SherpaOnnx
